import Mathlib

/-
Shallow embedding of `src/include/fst/result.hpp` (the `fst::result<T, E>`
tri-state container).  C++ machine details are modelled as follows:

* The anonymous union `members` (lines 529-536) is modelled by the inductive
  `members`: it records which member is currently active (`m_value`,
  `m_error`) or that no member has been constructed (`mk0`, the
  `members()` default constructor).
* A C++ read of an *inactive* union member is undefined behavior; the
  embedding's union readers return `Option` values, with `none` standing
  for such a read.  Operations whose source text can perform an inactive
  read therefore return `Option`/`Except`.
* `T{}` (value-initialization of `T`) is not canonical in Lean, so every
  operation whose source text constructs `T{}` takes an explicit
  parameter `t0` standing for it.
* Throwing an exception is modelled by `Except.error` carrying the
  exception message string.
-/

namespace fst

/-- State of a result object (result.hpp line 19):
`enum class result_state : unsigned char { empty, success, error }`. -/
inductive result_state : Type where
  | empty : result_state
  | success : result_state
  | error : result_state
deriving DecidableEq, BEq

/-- Embeds `to_string(const result_state&)` (result.hpp lines 45-56). -/
def to_string : result_state → String
  | result_state.empty => "empty"
  | result_state.success => "success"
  | result_state.error => "error"

/-- Embeds the anonymous union `members` of `result<T, E>` (result.hpp lines
529-536).  A C++ union holds at most one active member; `mk0` is the state
after the `members()` default constructor (no member constructed),
`m_value v` after `members(success_tag, v)`, and `m_error e` after
`members(error_tag, e)`. -/
inductive members (T E : Type) : Type where
  | mk0 : members T E
  | m_value : T → members T E
  | m_error : E → members T E
deriving DecidableEq

/-- Reading the union member `m_value`; `none` models the undefined
behavior of reading it while it is not the active member. -/
def members.asValue {T E : Type} : members T E → Option T
  | members.m_value v => some v
  | _ => none

/-- Reading the union member `m_error`; `none` models the undefined
behavior of reading it while it is not the active member. -/
def members.asError {T E : Type} : members T E → Option E
  | members.m_error e => some e
  | _ => none

/-- Embeds the data members of `fst::result<T, E>` (result.hpp lines
527-536): the state tag `m_state` and the union `m_self`. -/
structure result (T E : Type) : Type where
  m_state : result_state
  m_self : members T E
deriving DecidableEq

namespace result

variable {T E U E2 : Type}

/-- Embeds the default constructor (result.hpp line 105):
`constexpr result() : m_state(result_state::empty), m_self(success_t, T())`.
Note that it sets the state to `empty` yet actively constructs a
value-initialized `T` in the union; `t0` stands for `T{}`. -/
def mkDefault (t0 : T) : result T E :=
  { m_state := result_state.empty, m_self := members.m_value t0 }

/-- Embeds the untagged success constructor (result.hpp lines 113-115):
`result(const T& value) : m_state(result_state::success), m_self(success_t, value)`. -/
def ofValue (v : T) : result T E :=
  { m_state := result_state.success, m_self := members.m_value v }

/-- Embeds the untagged error constructor (result.hpp lines 123-125):
`result(const E& error) : m_state(result_state::error), m_self(error_t, error)`. -/
def ofError (e : E) : result T E :=
  { m_state := result_state.error, m_self := members.m_error e }

/-- Embeds the tagged success constructor (result.hpp lines 139-140):
`result(success_tag, const T& value)`. -/
def mkSuccess (v : T) : result T E :=
  { m_state := result_state.success, m_self := members.m_value v }

/-- Embeds the tagged error constructor (result.hpp lines 154-155):
`result(error_tag, const E& error)`. -/
def mkError (e : E) : result T E :=
  { m_state := result_state.error, m_self := members.m_error e }

/-- Embeds `result::success` (result.hpp lines 209-212): state equals
success gives `optional(m_self.m_value)`, otherwise `nullopt`. -/
def success (r : result T E) : Option T :=
  match r.m_state with
  | result_state.success => r.m_self.asValue
  | _ => none

/-- Embeds `result::error` (result.hpp lines 221-224): state equals error
gives `optional(m_self.m_error)`, otherwise `nullopt`. -/
def error (r : result T E) : Option E :=
  match r.m_state with
  | result_state.error => r.m_self.asError
  | _ => none

/-- Embeds `result::value` (result.hpp lines 233-239): in the success
state it returns `m_self.m_value`; otherwise it throws `bad_result_access`
with the message built from the fixed prefix and `to_string(m_state)`
(so the exception carries the actual state).  The inner `Except.error`
branch models the undefined read of an inactive union member, which no
reachable success-state instance performs. -/
def value (r : result T E) : Except String T :=
  match r.m_state with
  | result_state.success =>
      match r.m_self.asValue with
      | some v => Except.ok v
      | none => Except.error "undefined behavior: inactive union member read"
  | st => Except.error ("Invalid state for value access, result's state was: " ++ to_string st)

/-- Embeds `result::value_or` (result.hpp lines 251-253): in the success
state it returns `m_self.m_value`, otherwise the supplied default.  The
C++ parameter has default argument `T{}`; callers of the embedding pass
it explicitly.  `none` models the undefined read of an inactive union
member. -/
def value_or (d : T) (r : result T E) : Option T :=
  match r.m_state with
  | result_state.success => r.m_self.asValue
  | _ => some d

/-- Embeds `result::has_value` (result.hpp lines 284-286). -/
def has_value (r : result T E) : Bool :=
  r.m_state == result_state.success

/-- Embeds `result::has_error` (result.hpp lines 294-296). -/
def has_error (r : result T E) : Bool :=
  r.m_state == result_state.error

/-- Embeds `result::is_empty` (result.hpp lines 304-306). -/
def is_empty (r : result T E) : Bool :=
  r.m_state == result_state.empty

/-- Embeds `result::or_else` (result.hpp lines 330-336).  In the error
state it returns `f(m_self.m_error)` directly; otherwise it returns
`result<T, E2>(success_t, value_or())`, where `value_or()` uses the
default argument `T{}` (modelled by `t0`): in the success state this is
the stored value, in the empty state it is `t0`. -/
def or_else (t0 : T) (f : E → result T E2) (r : result T E) : Option (result T E2) :=
  match r.m_state with
  | result_state.error => Option.map f r.m_self.asError
  | _ => Option.map (fun w => mkSuccess w) (r.value_or t0)

/-- Embeds `result::and_then` (result.hpp lines 360-366).  In the success
state it returns `f(m_self.m_value)` directly (flattening); in every
other state, the source text reads `m_self.m_error` unconditionally and
returns `result<U, E>(error_t, m_self.m_error)` — also in the empty
state, where `m_error` need not be the active member (then `none`:
undefined behavior). -/
def and_then (f : T → result U E) (r : result T E) : Option (result U E) :=
  match r.m_state with
  | result_state.success => Option.map f r.m_self.asValue
  | _ => Option.map (fun e => mkError e) r.m_self.asError

/-- Embeds `result::map` (result.hpp lines 385-392).  The C++ member
template accepts any callable `f`; every branch of the conditional has type
`result<T, E>`, so `map` never changes the success type.  The success
branch is `result<T, E>(success_t, f(m_self.m_value))`: the return value
of `f` (of some type `U`) is bound to the `const T&` parameter of the
tagged constructor (line 139), applying the implicit conversion from `U`
to `T`; the embedding makes that conversion an explicit parameter `conv`
(the identity when `f` returns `T` itself).  The error branch rebuilds
`result<T, E>(error_t, m_self.m_error)`; the empty branch returns the
default-constructed `result<T, E>()` (line 105), whose union holds
`T{}`, modelled by `t0`. -/
def map (t0 : T) (conv : U → T) (f : T → U) (r : result T E) : Option (result T E) :=
  match r.m_state with
  | result_state.success => Option.map (fun v => mkSuccess (conv (f v))) r.m_self.asValue
  | result_state.error => Option.map (fun e => mkError e) r.m_self.asError
  | result_state.empty => some (mkDefault t0)

/-- Embeds the move constructor `result(result&&)` (result.hpp lines
172-186): the destination takes the source's state tag and, in the
success or error state, move-constructs the active union member (the
union starts as `members()`, no active member, and is then assigned);
in the empty state the union is left with no active member.  Afterwards
the source's state is set to `empty` while its union is left unchanged
(the moved-from payload object remains active; a C++ move leaves it in a
valid unspecified state, modelled here by keeping its old value).
Returns `(destination, source after the move)`. -/
def move (r : result T E) : Option (result T E × result T E) :=
  match r.m_state with
  | result_state.success =>
      Option.map
        (fun v => ({ m_state := result_state.success, m_self := members.m_value v },
                   { m_state := result_state.empty, m_self := r.m_self }))
        r.m_self.asValue
  | result_state.error =>
      Option.map
        (fun e => ({ m_state := result_state.error, m_self := members.m_error e },
                   { m_state := result_state.empty, m_self := r.m_self }))
        r.m_self.asError
  | result_state.empty =>
      some ({ m_state := result_state.empty, m_self := members.mk0 },
            { m_state := result_state.empty, m_self := r.m_self })

/-- Embeds the success-channel conversion `operator result<U, E>`
(result.hpp lines 494-497): `return result<U, E>(U(value()))`.  It calls
`value()` unconditionally, so in any state other than success the
`bad_result_access` exception propagates (`Except.error`).  `cast`
stands for the conversion `U(...)` applied to the stored value, and the
produced result uses the untagged success constructor (lines 113-115). -/
def convert_success (cast : T → U) (r : result T E) : Except String (result U E) :=
  Except.map (fun v => ofValue (cast v)) r.value

/-- State/union coherence: the state tag names the active union member.
Every instance produced by the five constructors satisfies it, and the
copy/move constructors preserve it; it can fail only for raw records
never built by the source's constructors. -/
def WF (r : result T E) : Prop :=
  (r.m_state = result_state.success → ∃ v, r.m_self = members.m_value v) ∧
  (r.m_state = result_state.error → ∃ e, r.m_self = members.m_error e)

end result

/-- The success-type parameter of a result: for `r : result T E` this is
`T`, the static type of the success channel. -/
def successTypeOf {T E : Type} (_ : result T E) : Type := T

/-- The standard C++ conversion from `bool` to an integer type
(`true` becomes `1`, `false` becomes `0`), as applied implicitly when a
`bool` is bound to the `const T&` parameter of the tagged success
constructor with `T` an integer type. -/
def boolToInt (b : Bool) : Int := if b then 1 else 0

theorem int_ne_bool : (Int = Bool) → False := by
  intro h
  have hf : Finite Int := by rw [h]; exact inferInstance
  exact @not_finite Int inferInstance hf

/-- Claim C1, counterexample.  Instantiate `result<T, E>` at
`T = Int`, `E = String` and call `map` with a callable returning `Bool`
(so the claim's new success type is `Bool`): on `Success 5` the source
produces `Success 1` — the `Bool` return value is implicitly converted to
`Int` and stored in a `result Int String`, whose success type is `Int`,
not `Bool`.  This refutes the claim's conjunct that the returned
result's success type is determined by the callable's return type. -/
theorem claim1_map_counterexample :
    result.map 0 boolToInt (fun _ => true) (result.ofValue 5 : result Int String)
      = some (result.mkSuccess 1) ∧
    successTypeOf (result.mkSuccess 1 : result Int String) ≠ Bool := by
  refine ⟨rfl, fun h => int_ne_bool h⟩

/-- Claim C1 (amended): `map` keeps the success type `T` unchanged.  If
the receiver is `Success v`, `map` returns `Success` of `f v` converted
to `T` (the identity conversion when `f` returns `T`); if `Error e`, it
returns `Error e` in the same type `result T E`; if `Empty`, it returns
the default-constructed (Empty) `result T E`. -/
theorem claim1_map_amended :
    ∀ (T U E : Type) (t0 t1 : T) (conv : U → T) (f : T → U) (v : T) (e : E),
      result.map t0 conv f (result.ofValue v : result T E)
        = some (result.mkSuccess (conv (f v))) ∧
      result.map t0 conv f (result.ofError e : result T E)
        = some (result.mkError e) ∧
      result.map t0 conv f (result.mkDefault t1 : result T E)
        = some (result.mkDefault t0) :=
  fun _ _ _ _ _ _ _ _ _ => ⟨rfl, rfl, rfl⟩

/-- Claim C2: `and_then` applied to a result constructed in the Error
state with payload `e` returns `Error e` recast to the callable's
success type `U`, for every callable `f`; the right-hand side does not
involve `f`, so `f` is never invoked. -/
theorem claim2_and_then_short_circuits :
    ∀ (T U E : Type) (e : E) (f : T → result U E),
      result.and_then f (result.ofError e) = some (result.mkError e) :=
  fun _ _ _ _ _ => rfl

/-- Claim C6: for every instance, exactly one of `has_value`,
`has_error`, `is_empty` returns true. -/
theorem claim6_state_exclusivity :
    ∀ (T E : Type) (r : result T E),
      (r.has_value = true ∧ r.has_error = false ∧ r.is_empty = false) ∨
      (r.has_value = false ∧ r.has_error = true ∧ r.is_empty = false) ∨
      (r.has_value = false ∧ r.has_error = false ∧ r.is_empty = true) := by
  intro T E r
  obtain ⟨st, ms⟩ := r
  cases st with
  | empty => exact Or.inr (Or.inr ⟨rfl, rfl, rfl⟩)
  | success => exact Or.inl ⟨rfl, rfl, rfl⟩
  | error => exact Or.inr (Or.inl ⟨rfl, rfl, rfl⟩)

/-- Claim C7: a result constructed from `v` as a success satisfies
`value() = v` (no exception) and `success() = some v`. -/
theorem claim7_success_round_trip :
    ∀ (T E : Type) (v : T),
      (result.ofValue v : result T E).value = Except.ok v ∧
      (result.ofValue v : result T E).success = some v :=
  fun _ _ _ => ⟨rfl, rfl⟩

/-- Claim C3, counterexample.  A default-constructed result has state
`empty`, yet its union holds an actively constructed, value-initialized
`T` payload (`0` for `T = Int`), because the default constructor
initializes `m_self(success_t, T())` — refuting the claim that in the
Empty state neither a `T` value nor an `E` value is materialized. -/
theorem claim3_empty_counterexample :
    (result.mkDefault 0 : result Int String).m_state = result_state.empty ∧
    (result.mkDefault 0 : result Int String).m_self = members.m_value 0 :=
  ⟨rfl, rfl⟩

/-- Claim C3 (amended): in the Empty state no payload is observable —
`success()` and `error()` both return `none` — and conversely, for every
state/union-coherent instance, if both accessors return `none` the state
is Empty.  (Storage-wise, however, a default-constructed Empty result
does materialize a value-initialized `T` object in its union, and a
moved-from result keeps its previous active member.) -/
theorem claim3_empty_no_observable_payload :
    ∀ (T E : Type) (r : result T E), result.WF r →
      (r.m_state = result_state.empty ↔ (r.success = none ∧ r.error = none)) := by
  intro T E r hwf
  obtain ⟨hs, he⟩ := hwf
  obtain ⟨st, ms⟩ := r
  cases st with
  | empty => exact ⟨fun _ => ⟨rfl, rfl⟩, fun _ => rfl⟩
  | success =>
      refine ⟨fun h => (nomatch h), fun h => ?_⟩
      obtain ⟨v, hv⟩ := hs rfl
      simp only at hv
      rw [show (result.mk result_state.success ms).success = ms.asValue from rfl, hv] at h
      exact absurd h.1 (by simp [members.asValue])
  | error =>
      refine ⟨fun h => (nomatch h), fun h => ?_⟩
      obtain ⟨e, hev⟩ := he rfl
      simp only at hev
      rw [show (result.mk result_state.error ms).error = ms.asError from rfl, hev] at h
      exact absurd h.2 (by simp [members.asError])

/-- Claim C3, witness: the amended theorem applied to the
default-constructed `result Int String`. -/
theorem claim3_witness :
    (result.mkDefault 0 : result Int String).success = none ∧
    (result.mkDefault 0 : result Int String).error = none :=
  (claim3_empty_no_observable_payload Int String (result.mkDefault 0)
    ⟨fun h => (nomatch h), fun h => nomatch h⟩).mp rfl

/-- Claim C4: `value()` on an instance whose state is not Success throws
`bad_result_access` with a message carrying the actual state (via
`to_string(m_state)`); on a Success instance (whose union actively holds
a value `v`, as every reachable Success instance does) it returns `v`
without failing. -/
theorem claim4_value_access :
    ∀ (T E : Type) (r : result T E),
      (r.m_state ≠ result_state.success →
        r.value = Except.error
          ("Invalid state for value access, result's state was: " ++ to_string r.m_state)) ∧
      (∀ v : T, r.m_self = members.m_value v → r.m_state = result_state.success →
        r.value = Except.ok v) := by
  intro T E r
  obtain ⟨st, ms⟩ := r
  cases st with
  | empty => exact ⟨fun _ => rfl, fun v _ hs => nomatch hs⟩
  | error => exact ⟨fun _ => rfl, fun v _ hs => nomatch hs⟩
  | success =>
      refine ⟨fun h => absurd rfl h, fun v hv _ => ?_⟩
      simp only at hv
      subst hv
      rfl

/-- Claim C4, witness: `value()` on an Error instance yields the
`InvalidState` message naming the state `error`; on `Success 7` it
yields `7`. -/
theorem claim4_witness :
    (result.mkError "boom" : result Int String).value
      = Except.error "Invalid state for value access, result's state was: error" ∧
    (result.ofValue 7 : result Int String).value = Except.ok 7 :=
  ⟨(claim4_value_access Int String (result.mkError "boom")).1 (fun h => nomatch h),
   (claim4_value_access Int String (result.ofValue 7)).2 7 rfl rfl⟩

/-- Claim C8: if the move constructor consumes `r` producing destination
`d` and leaving the source as `s`, then `s` is Empty, `d` has exactly
the state `r` had, `d`'s observable payloads equal `r`'s, and for a
non-Empty `r` the union contents transfer verbatim. -/
theorem claim8_move_empties_source :
    ∀ (T E : Type) (r d s : result T E), result.move r = some (d, s) →
      s.is_empty = true ∧ d.m_state = r.m_state ∧
      d.success = r.success ∧ d.error = r.error ∧
      (r.m_state ≠ result_state.empty → d.m_self = r.m_self) := by
  intro T E r d s h
  obtain ⟨st, ms⟩ := r
  cases st with
  | empty =>
      simp only [result.move, Option.some.injEq, Prod.mk.injEq] at h
      obtain ⟨hd, hs⟩ := h
      subst hd; subst hs
      exact ⟨rfl, rfl, rfl, rfl, fun hne => absurd rfl hne⟩
  | success =>
      cases ms with
      | mk0 => exact nomatch h
      | m_error e => exact nomatch h
      | m_value v =>
          simp only [result.move, members.asValue, Option.map, Option.some.injEq,
            Prod.mk.injEq] at h
          obtain ⟨hd, hs⟩ := h
          subst hd; subst hs
          exact ⟨rfl, rfl, rfl, rfl, fun _ => rfl⟩
  | error =>
      cases ms with
      | mk0 => exact nomatch h
      | m_value v => exact nomatch h
      | m_error e =>
          simp only [result.move, members.asError, Option.map, Option.some.injEq,
            Prod.mk.injEq] at h
          obtain ⟨hd, hs⟩ := h
          subst hd; subst hs
          exact ⟨rfl, rfl, rfl, rfl, fun _ => rfl⟩

/-- Claim C8, witness: moving from `Success 3` leaves the source Empty
and the destination `Success 3`. -/
theorem claim8_witness :
    (result.mk result_state.empty (members.m_value 3) : result Int String).is_empty = true ∧
    (result.ofValue 3 : result Int String).m_state = (result.ofValue 3 : result Int String).m_state ∧
    (result.ofValue 3 : result Int String).success = (result.ofValue 3 : result Int String).success ∧
    (result.ofValue 3 : result Int String).error = (result.ofValue 3 : result Int String).error ∧
    ((result.ofValue 3 : result Int String).m_state ≠ result_state.empty →
      (result.ofValue 3 : result Int String).m_self = (result.ofValue 3 : result Int String).m_self) :=
  claim8_move_empties_source Int String (result.ofValue 3) (result.ofValue 3)
    (result.mk result_state.empty (members.m_value 3)) rfl

/-- Claim C9: the success-channel conversion calls `value()`
unconditionally, so on an Error instance it fails with the
`InvalidState` message (naming the state) instead of producing a
converted result; it produces a result only when the state is
Success. -/
theorem claim9_conversion_on_error :
    ∀ (T U E : Type) (cast : T → U) (r : result T E),
      (r.m_state = result_state.error →
        r.convert_success cast = Except.error
          ("Invalid state for value access, result's state was: " ++ to_string r.m_state)) ∧
      (∀ res : result U E, r.convert_success cast = Except.ok res →
        r.m_state = result_state.success) := by
  intro T U E cast r
  obtain ⟨st, ms⟩ := r
  cases st with
  | error => exact ⟨fun _ => rfl, fun res h => nomatch h⟩
  | empty => exact ⟨fun h => (nomatch h), fun res h => nomatch h⟩
  | success =>
      refine ⟨fun h => (nomatch h), fun res _ => rfl⟩

/-- Claim C9, witness: converting the error instance
`result.mkError "oops" : result Int String` to `result Nat String` fails
with the `InvalidState` message naming the state `error`. -/
theorem claim9_witness :
    result.convert_success Int.toNat (result.mkError "oops" : result Int String)
      = Except.error "Invalid state for value access, result's state was: error" :=
  (claim9_conversion_on_error Int Nat String Int.toNat (result.mkError "oops")).1 rfl

/-- Claim C10: `or_else` on an Empty-state result never invokes the
callable (the right-hand side does not involve `f`) and returns a
Success-state result holding the value-initialized default `T{}`
(modelled by `t0`, the default argument of `value_or`), not an Empty
result. -/
theorem claim10_or_else_on_empty :
    ∀ (T E E2 : Type) (t0 : T) (f : E → result T E2) (r : result T E),
      r.m_state = result_state.empty →
      r.or_else t0 f = some (result.mkSuccess t0) := by
  intro T E E2 t0 f r h
  obtain ⟨st, ms⟩ := r
  cases st with
  | empty => rfl
  | success => exact nomatch h
  | error => exact nomatch h

/-- Claim C10, witness: `or_else` on the default-constructed (Empty)
`result Int String` with a callable producing `result Int Nat` returns
`Success 0` (`0` is the value-initialized `Int`). -/
theorem claim10_witness :
    result.or_else 0 (fun _ : String => (result.mkError 4 : result Int Nat))
      (result.mkDefault 0 : result Int String) = some (result.mkSuccess 0) :=
  claim10_or_else_on_empty Int String Nat 0
    (fun _ => result.mkError 4) (result.mkDefault 0) rfl

end fst
